import Mathlib

/-!
# Anaglyph model viewer (`src/app.js`): placement helpers, Dubois toggle

A shallow embedding of the first-party helpers of `src/app.js` together with the
part of the three.js API they call (`Vector3`, `Matrix4.compose`, `Box3.setFromObject`,
`Object3D` transforms).

Numbers.  JavaScript numbers are embedded as exact rationals `ℚ`.  The theorems below
that evaluate the placement helpers do so at inputs on which no operation of the source
rounds (small integers, and `1.8 / 2`), so the values are those the code computes in
doubles; statements that hold in exact arithmetic only, such as a world box that ends with
`min.y` exactly `0` for every object, are not made.  The two infinite values the code can
meet, the `+Infinity`/`-Infinity` corners of an empty `Box3`, are represented by the
constructor `Box3.empty`, and each place that reads them says what the comparison or
`Math.max` gives there.

Scene graph.  An `Object3D` carries its own `position`, `quaternion`, `scale`, an
optional geometry and its children; `parent` holds the `matrixWorld` of the parent
(`none` for `parent === null`).  `matrixAutoUpdate` is taken at its default `true`, so
the local matrix is always `compose(position, quaternion, scale)`.  All matrices that
occur are affine (last row `0 0 0 1`), so `Matrix4` stores the upper three rows.
-/

namespace Anaglifo

/-! ## three.js: vectors, quaternions, matrices -/

/-- THREE.Vector3. -/
structure Vector3 where
  x : ℚ
  y : ℚ
  z : ℚ
deriving DecidableEq

/-- THREE.Quaternion (not assumed normalised). -/
structure Quaternion where
  x : ℚ
  y : ℚ
  z : ℚ
  w : ℚ
deriving DecidableEq

/-- THREE.Matrix4 restricted to affine matrices: rows one to three, `nij` being row `i`,
column `j`; the fourth row is `0 0 0 1`. -/
structure Matrix4 where
  n11 : ℚ
  n12 : ℚ
  n13 : ℚ
  n14 : ℚ
  n21 : ℚ
  n22 : ℚ
  n23 : ℚ
  n24 : ℚ
  n31 : ℚ
  n32 : ℚ
  n33 : ℚ
  n34 : ℚ
deriving DecidableEq

namespace Vector3

/-- Vector3.set(0, 0, 0). -/
def zero : Vector3 := ⟨0, 0, 0⟩

/-- Vector3.setScalar(s). -/
def setScalar (s : ℚ) : Vector3 := ⟨s, s, s⟩

/-- Vector3.sub / Vector3.subVectors. -/
def sub (a b : Vector3) : Vector3 := ⟨a.x - b.x, a.y - b.y, a.z - b.z⟩

/-- Vector3.addVectors. -/
def add (a b : Vector3) : Vector3 := ⟨a.x + b.x, a.y + b.y, a.z + b.z⟩

/-- Vector3.multiplyScalar. -/
def multiplyScalar (a : Vector3) (s : ℚ) : Vector3 := ⟨a.x * s, a.y * s, a.z * s⟩

/-- Vector3.min (componentwise). -/
def min (a b : Vector3) : Vector3 := ⟨Min.min a.x b.x, Min.min a.y b.y, Min.min a.z b.z⟩

/-- Vector3.max (componentwise). -/
def max (a b : Vector3) : Vector3 := ⟨Max.max a.x b.x, Max.max a.y b.y, Max.max a.z b.z⟩

/-- Vector3.applyMatrix4 for an affine matrix (the perspective divisor is 1). -/
def applyMatrix4 (v : Vector3) (m : Matrix4) : Vector3 :=
  ⟨m.n11 * v.x + m.n12 * v.y + m.n13 * v.z + m.n14,
   m.n21 * v.x + m.n22 * v.y + m.n23 * v.z + m.n24,
   m.n31 * v.x + m.n32 * v.y + m.n33 * v.z + m.n34⟩

end Vector3

namespace Matrix4

/-- Matrix4.compose(position, quaternion, scale), entry by entry as in three.js. -/
def compose (position : Vector3) (quaternion : Quaternion) (scale : Vector3) : Matrix4 :=
  let x := quaternion.x
  let y := quaternion.y
  let z := quaternion.z
  let w := quaternion.w
  let x2 := x + x
  let y2 := y + y
  let z2 := z + z
  let xx := x * x2
  let xy := x * y2
  let xz := x * z2
  let yy := y * y2
  let yz := y * z2
  let zz := z * z2
  let wx := w * x2
  let wy := w * y2
  let wz := w * z2
  let sx := scale.x
  let sy := scale.y
  let sz := scale.z
  { n11 := (1 - (yy + zz)) * sx, n21 := (xy + wz) * sx, n31 := (xz - wy) * sx,
    n12 := (xy - wz) * sy, n22 := (1 - (xx + zz)) * sy, n32 := (yz + wx) * sy,
    n13 := (xz + wy) * sz, n23 := (yz - wx) * sz, n33 := (1 - (xx + yy)) * sz,
    n14 := position.x, n24 := position.y, n34 := position.z }

/-- Matrix4.multiplyMatrices(a, b) for affine matrices. -/
def multiplyMatrices (a b : Matrix4) : Matrix4 :=
  { n11 := a.n11 * b.n11 + a.n12 * b.n21 + a.n13 * b.n31,
    n12 := a.n11 * b.n12 + a.n12 * b.n22 + a.n13 * b.n32,
    n13 := a.n11 * b.n13 + a.n12 * b.n23 + a.n13 * b.n33,
    n14 := a.n11 * b.n14 + a.n12 * b.n24 + a.n13 * b.n34 + a.n14,
    n21 := a.n21 * b.n11 + a.n22 * b.n21 + a.n23 * b.n31,
    n22 := a.n21 * b.n12 + a.n22 * b.n22 + a.n23 * b.n32,
    n23 := a.n21 * b.n13 + a.n22 * b.n23 + a.n23 * b.n33,
    n24 := a.n21 * b.n14 + a.n22 * b.n24 + a.n23 * b.n34 + a.n24,
    n31 := a.n31 * b.n11 + a.n32 * b.n21 + a.n33 * b.n31,
    n32 := a.n31 * b.n12 + a.n32 * b.n22 + a.n33 * b.n32,
    n33 := a.n31 * b.n13 + a.n32 * b.n23 + a.n33 * b.n33,
    n34 := a.n31 * b.n14 + a.n32 * b.n24 + a.n33 * b.n34 + a.n34 }

end Matrix4

/-! ## three.js: axis-aligned boxes -/

/-- THREE.Box3.  `empty` is the box of `makeEmpty()`, whose `min` is `+Infinity` and whose
`max` is `-Infinity` on every axis; `box min max` has finite corners. -/
inductive Box3 where
  | empty
  | box (min max : Vector3)
deriving DecidableEq

namespace Box3

/-- Box3.isEmpty: `max < min` on some axis. -/
def isEmpty : Box3 → Bool
  | empty => true
  | box mn mx => decide (mx.x < mn.x) || decide (mx.y < mn.y) || decide (mx.z < mn.z)

/-- Box3.expandByPoint: `min.min(point)`, `max.max(point)`. -/
def expandByPoint : Box3 → Vector3 → Box3
  | empty, p => box p p
  | box mn mx, p => box (mn.min p) (mx.max p)

/-- Box3.setFromPoints / setFromBufferAttribute: start empty, expand by each point. -/
def setFromPoints (points : List Vector3) : Box3 :=
  points.foldl expandByPoint empty

/-- Box3.union: `min.min(other.min)`, `max.max(other.max)`. -/
def union : Box3 → Box3 → Box3
  | empty, b => b
  | a, empty => a
  | box mn mx, box mn2 mx2 => box (mn.min mn2) (mx.max mx2)

/-- Box3.applyMatrix4: an empty box is returned as it is, otherwise the box of the eight
transformed corners. -/
def applyMatrix4 (b : Box3) (m : Matrix4) : Box3 :=
  match b with
  | empty => empty
  | box mn mx =>
    if (box mn mx).isEmpty then box mn mx
    else setFromPoints
      [ (Vector3.mk mn.x mn.y mn.z).applyMatrix4 m,
        (Vector3.mk mn.x mn.y mx.z).applyMatrix4 m,
        (Vector3.mk mn.x mx.y mn.z).applyMatrix4 m,
        (Vector3.mk mn.x mx.y mx.z).applyMatrix4 m,
        (Vector3.mk mx.x mn.y mn.z).applyMatrix4 m,
        (Vector3.mk mx.x mn.y mx.z).applyMatrix4 m,
        (Vector3.mk mx.x mx.y mn.z).applyMatrix4 m,
        (Vector3.mk mx.x mx.y mx.z).applyMatrix4 m ]

/-- Box3.getCenter: `(0, 0, 0)` for an empty box, else `(min + max) * 0.5`. -/
def getCenter (b : Box3) : Vector3 :=
  match b with
  | empty => Vector3.zero
  | box mn mx => if (box mn mx).isEmpty then Vector3.zero else (mn.add mx).multiplyScalar (1 / 2)

/-- Box3.getSize: `(0, 0, 0)` for an empty box, else `max - min`. -/
def getSize (b : Box3) : Vector3 :=
  match b with
  | empty => Vector3.zero
  | box mn mx => if (box mn mx).isEmpty then Vector3.zero else mx.sub mn

end Box3

/-! ## three.js: geometries and the scene graph -/

/-- THREE.BufferGeometry, as far as bounding boxes go: the vertices of the `position`
attribute (for a skinned mesh, the vertices its object-level bounding box is computed
from). -/
structure Geometry where
  position : List Vector3
deriving DecidableEq

/-- BufferGeometry.computeBoundingBox followed by reading `boundingBox`: the box of the
vertices, the empty box when there are none. -/
def Geometry.computeBoundingBox (g : Geometry) : Box3 :=
  Box3.setFromPoints g.position

/-- THREE.Object3D with the fields the helpers read or write.  `parent` is the
`matrixWorld` of the parent object, `none` for `parent === null`; it is read on the
object a helper is called with, while below it `expandByObject` hands every child the
fresh `matrixWorld` of the node it hangs under. -/
structure Object3D where
  name : String
  isMesh : Bool
  isSkinnedMesh : Bool
  visible : Bool
  position : Vector3
  quaternion : Quaternion
  scale : Vector3
  parent : Option Matrix4
  geometry : Option Geometry
  children : List Object3D

namespace Object3D

/-- Object3D.updateMatrix: `matrix.compose(position, quaternion, scale)`. -/
def matrix (o : Object3D) : Matrix4 :=
  Matrix4.compose o.position o.quaternion o.scale

/-- Object3D.updateWorldMatrix(false, false): `matrixWorld` is `matrix` without a parent,
`parent.matrixWorld * matrix` with one. -/
def updateWorldMatrix (o : Object3D) : Matrix4 :=
  match o.parent with
  | none => o.matrix
  | some p => Matrix4.multiplyMatrices p o.matrix

end Object3D

mutual
/-- Box3.expandByObject below the top call: `matrixWorld` is the world matrix of the node;
its geometry box is transformed by it and united, then the children follow, each with
`matrixWorld * child.matrix`. -/
def Box3.expandByNode (box : Box3) (matrixWorld : Matrix4) : Object3D → Box3
  | ⟨_, _, _, _, _, _, _, _, geometry, children⟩ =>
    Box3.expandByChildren
      (match geometry with
        | none => box
        | some g => box.union (g.computeBoundingBox.applyMatrix4 matrixWorld))
      matrixWorld children
/-- The loop over `object.children` of Box3.expandByObject. -/
def Box3.expandByChildren (box : Box3) (matrixWorld : Matrix4) : List Object3D → Box3
  | [] => box
  | c :: cs =>
    Box3.expandByChildren
      (Box3.expandByNode box (Matrix4.multiplyMatrices matrixWorld c.matrix) c) matrixWorld cs
end

/-- Box3.setFromObject on a fresh box, `new THREE.Box3().setFromObject(obj)`: the
world-axis-aligned box of the object and its descendants. -/
def Box3.setFromObject (obj : Object3D) : Box3 :=
  Box3.expandByNode Box3.empty obj.updateWorldMatrix obj

/-! ## `src/app.js`: cleaning, scaling, centring, ground placement -/

/-- String.prototype.toLowerCase on the characters of the name.  Only `A`-`Z` are mapped;
no character outside ASCII lower-cases to a letter of the four keywords searched for. -/
def toLowerCase (s : String) : List Char :=
  s.toList.map Char.toLower

/-- String.prototype.includes. -/
def includes (n : List Char) (pat : String) : Bool :=
  decide (pat.toList <:+: n)

/-- The sorted extents `[Math.abs(sz.x), Math.abs(sz.y), Math.abs(sz.z)].sort((a,b)=>a-b)`
of `stripFlatPlanes`. -/
def sortedDims (sz : Vector3) : List ℚ :=
  List.insertionSort (fun a b => a ≤ b) [|sz.x|, |sz.y|, |sz.z|]

/-- The test `isFlatPlane` of `stripFlatPlanes` on the bounding box `bb`.  For the empty
box every extent is `Infinity`, and `Infinity < Infinity * 0.02` is false. -/
def isFlatPlane : Box3 → Bool
  | Box3.empty => false
  | Box3.box mn mx =>
    let sz := mx.sub mn
    let dims := sortedDims sz
    let thin := dims.getD 0 0
    let mid := dims.getD 1 0
    let big := dims.getD 2 0
    decide (thin < big * (2 / 100)) && decide (mid * big > 2 / 10)

/-- The callback `stripFlatPlanes` hands to `root.traverse`, applied to one node `c`. -/
def stripFlatPlanesVisit (c : Object3D) : Object3D :=
  match c.isMesh, c.geometry with
  | true, some g =>
    let n := toLowerCase c.name
    if includes n "plane" || includes n "shadow" || includes n "card" || includes n "board" then
      { c with visible := false }
    else
      let bb : Option Box3 := some g.computeBoundingBox
      match bb with
      | none => c
      | some bb =>
        if isFlatPlane bb && !c.isSkinnedMesh then { c with visible := false } else c
  | _, _ => c

mutual
/-- The function `stripFlatPlanes(root)`: `root.traverse` runs the callback on the node,
then on each child in order.  The callback writes `visible` only, so the children visited
are those of the node as it was. -/
def stripFlatPlanes : Object3D → Object3D
  | ⟨name, isMesh, isSkinnedMesh, visible, position, quaternion, scale, parent, geometry,
      children⟩ =>
    { stripFlatPlanesVisit
        ⟨name, isMesh, isSkinnedMesh, visible, position, quaternion, scale, parent, geometry,
          children⟩ with
      children := stripFlatPlanesChildren children }
/-- The loop of `traverse` over the children. -/
def stripFlatPlanesChildren : List Object3D → List Object3D
  | [] => []
  | c :: cs => stripFlatPlanes c :: stripFlatPlanesChildren cs
end

/-- The vector `(0, Math.max(0.0, -box2.min.y), 0)` that `hardCenterObject` sets the orbit
target to.  For the empty box `-box2.min.y` is `-Infinity` and the maximum is `0`. -/
def orbitTarget : Box3 → Vector3
  | Box3.empty => ⟨0, 0, 0⟩
  | Box3.box mn _ => ⟨0, max 0 (-mn.y), 0⟩

/-- The function `hardCenterObject(obj)`: the object after `obj.position.sub(center)`, and
the orbit target after `controls.target.set(0, Math.max(0.0, -box2.min.y), 0)` and
`controls.update()`.  The latter belongs to OrbitControls and is given as
`controlsUpdate`, what it makes of the target just set. -/
def hardCenterObject (controlsUpdate : Vector3 → Vector3) (obj : Object3D) :
    Object3D × Vector3 :=
  let box := Box3.setFromObject obj
  let center := box.getCenter
  let obj1 := { obj with position := obj.position.sub center }
  let box2 := Box3.setFromObject obj1
  (obj1, controlsUpdate (orbitTarget box2))

/-- The function `normalizeScale(obj, targetHeight)`. -/
def normalizeScale (obj : Object3D) (targetHeight : ℚ) : Object3D :=
  let box := Box3.setFromObject obj
  let size := box.getSize
  if size.y > 0 then
    let s := targetHeight / size.y
    { obj with scale := Vector3.setScalar s }
  else obj

/-- The function `placeOnGround(obj)`.  On an empty box `box.min.y` is `+Infinity` and
`position.y` leaves the finite numbers: the result is `none`. -/
def placeOnGround (obj : Object3D) : Option Object3D :=
  match Box3.setFromObject obj with
  | Box3.empty => none
  | Box3.box mn _ =>
    let deltaY := mn.y
    some { obj with position := { obj.position with y := obj.position.y - deltaY } }

/-- The function `clampIfBelowGround(obj)`; `none` is a null or undefined `obj`.  On an
empty box `box.min.y` is `+Infinity`, which is not below zero. -/
def clampIfBelowGround (obj : Option Object3D) : Option Object3D :=
  match obj with
  | none => none
  | some o =>
    match Box3.setFromObject o with
    | Box3.empty => some o
    | Box3.box mn _ =>
      if mn.y < 0 then
        some { o with position := { o.position with y := o.position.y - mn.y } }
      else some o

/-! ## `src/app.js`: Dubois colour matrices -/

/-- THREE.Matrix3: the nine `elements`, in storage order. -/
structure Matrix3 where
  e0 : ℚ
  e1 : ℚ
  e2 : ℚ
  e3 : ℚ
  e4 : ℚ
  e5 : ℚ
  e6 : ℚ
  e7 : ℚ
  e8 : ℚ
deriving DecidableEq

/-- Matrix3.fromArray(array): copies the first nine entries into `elements`. -/
def Matrix3.fromArray (a : List ℚ) : Matrix3 :=
  ⟨a.getD 0 0, a.getD 1 0, a.getD 2 0, a.getD 3 0, a.getD 4 0, a.getD 5 0, a.getD 6 0,
    a.getD 7 0, a.getD 8 0⟩

/-- Matrix3.identity(). -/
def Matrix3.identity : Matrix3 := ⟨1, 0, 0, 0, 1, 0, 0, 0, 1⟩

/-- The constant `DUBOIS_LEFT`. -/
def DUBOIS_LEFT : Matrix3 := Matrix3.fromArray
  [ 0.456100, -0.0400822, -0.0152161,
    0.500484, -0.0378246, -0.0205971,
    0.176381, -0.0157589, -0.00546856 ]

/-- The constant `DUBOIS_RIGHT`. -/
def DUBOIS_RIGHT : Matrix3 := Matrix3.fromArray
  [ -0.0434706, 0.378476, -0.0721527,
    -0.0879388, 0.733640, -0.1129610,
    -0.00155529, -0.0184503, 1.2264000 ]

/-- The two colour matrices of the AnaglyphEffect; `none` when the effect has no such
property. -/
structure AnaglyphEffect where
  colorMatrixLeft : Option Matrix3
  colorMatrixRight : Option Matrix3
deriving DecidableEq

/-- The `change` handler of `duboisChk`, with `checked` the value of `e.target.checked`. -/
def duboisChange (effect : AnaglyphEffect) (checked : Bool) : AnaglyphEffect :=
  match effect.colorMatrixLeft, effect.colorMatrixRight with
  | some _, some _ =>
    if checked then
      { colorMatrixLeft := some DUBOIS_LEFT, colorMatrixRight := some DUBOIS_RIGHT }
    else
      { colorMatrixLeft := some Matrix3.identity, colorMatrixRight := some Matrix3.identity }
  | _, _ => effect

/-! ## Notions used in the statements -/

mutual
/-- The nodes `root.traverse` visits, in the order it visits them. -/
def Object3D.traverseNodes : Object3D → List Object3D
  | ⟨name, isMesh, isSkinnedMesh, visible, position, quaternion, scale, parent, geometry,
      children⟩ =>
    ⟨name, isMesh, isSkinnedMesh, visible, position, quaternion, scale, parent, geometry,
      children⟩ :: traverseNodesList children
/-- The nodes visited below a list of children. -/
def traverseNodesList : List Object3D → List Object3D
  | [] => []
  | c :: cs => c.traverseNodes ++ traverseNodesList cs
end

/-- Node `c2` carries the same own data as `c`, `visible` apart. -/
def Object3D.SameButVisible (c c2 : Object3D) : Prop :=
  c2.name = c.name ∧ c2.isMesh = c.isMesh ∧ c2.isSkinnedMesh = c.isSkinnedMesh ∧
    c2.position = c.position ∧ c2.quaternion = c.quaternion ∧ c2.scale = c.scale ∧
    c2.parent = c.parent ∧ c2.geometry = c.geometry

/-! ## Sample objects -/

/-- The world matrix of a parent scaled by 2. -/
def scaleTwo : Matrix4 := ⟨2, 0, 0, 0, 0, 2, 0, 0, 0, 0, 2, 0⟩

/-- A mesh above the ground that hangs under a parent scaled by 2. -/
def raisedChild : Object3D :=
  { name := "Body", isMesh := true, isSkinnedMesh := false, visible := true,
    position := ⟨0, 0, 0⟩, quaternion := ⟨0, 0, 0, 1⟩, scale := ⟨1, 1, 1⟩,
    parent := some scaleTwo, geometry := some ⟨[⟨0, 1, 0⟩, ⟨1, 2, 1⟩]⟩, children := [] }

/-- A skinned mesh named as a preview plane. -/
def previewPlane : Object3D :=
  { name := "Preview_Plane", isMesh := true, isSkinnedMesh := true, visible := true,
    position := ⟨0, 0, 0⟩, quaternion := ⟨0, 0, 0, 1⟩, scale := ⟨1, 1, 1⟩, parent := none,
    geometry := some ⟨[⟨0, 0, 0⟩, ⟨1, 1, 1⟩]⟩, children := [] }

/-- A large flat quad with a name that matches no keyword. -/
def floorQuad : Object3D :=
  { name := "Quad", isMesh := true, isSkinnedMesh := false, visible := true,
    position := ⟨0, 0, 0⟩, quaternion := ⟨0, 0, 0, 1⟩, scale := ⟨1, 1, 1⟩, parent := none,
    geometry := some ⟨[⟨-5, 0, -5⟩, ⟨5, 0, 5⟩]⟩, children := [] }

/-- A mesh of ordinary proportions with a name that matches no keyword. -/
def bodyMesh : Object3D :=
  { name := "Body", isMesh := true, isSkinnedMesh := false, visible := true,
    position := ⟨0, 0, 0⟩, quaternion := ⟨0, 0, 0, 1⟩, scale := ⟨1, 1, 1⟩, parent := none,
    geometry := some ⟨[⟨0, 0, 0⟩, ⟨1, 2, 1⟩]⟩, children := [] }

/-- A mesh with its feet below the ground that hangs under a parent scaled by 2. -/
def sunkenChild : Object3D :=
  { name := "Body", isMesh := true, isSkinnedMesh := false, visible := true,
    position := ⟨0, 0, 0⟩, quaternion := ⟨0, 0, 0, 1⟩, scale := ⟨1, 1, 1⟩,
    parent := some scaleTwo, geometry := some ⟨[⟨0, -1, 0⟩, ⟨1, 1, 1⟩]⟩, children := [] }

/-- A parentless mesh of height 1 whose root scale is `(2, 2, 2)`. -/
def scaledMesh : Object3D :=
  { name := "Body", isMesh := true, isSkinnedMesh := false, visible := true,
    position := ⟨0, 0, 0⟩, quaternion := ⟨0, 0, 0, 1⟩, scale := ⟨2, 2, 2⟩, parent := none,
    geometry := some ⟨[⟨0, 0, 0⟩, ⟨1, 1, 1⟩]⟩, children := [] }

/-- A mesh of world height 2 that hangs under a parent scaled by 2. -/
def tallChild : Object3D :=
  { name := "Body", isMesh := true, isSkinnedMesh := false, visible := true,
    position := ⟨0, 0, 0⟩, quaternion := ⟨0, 0, 0, 1⟩, scale := ⟨1, 1, 1⟩,
    parent := some scaleTwo, geometry := some ⟨[⟨0, 0, 0⟩, ⟨1, 1, 1⟩]⟩, children := [] }

/-! ## The placement helpers under a scaled parent and on a scaled root -/

/-- C2 at a mesh under a parent scaled by 2. The world box has y in `[2, 4]`;
`placeOnGround` reads `deltaY = 2` from it and takes it off the local `position.y`, which
through the parent moves the world box by `-4`: the box ends with y in `[-2, 0]`, so
`min.y` is `-2`, not `0`. -/
theorem placeOnGround_scaled_parent :
    Box3.setFromObject raisedChild = Box3.box ⟨0, 2, 0⟩ ⟨2, 4, 2⟩ ∧
    (placeOnGround raisedChild).map Object3D.position = some ⟨0, -2, 0⟩ ∧
    (placeOnGround raisedChild).map Box3.setFromObject
      = some (Box3.box ⟨0, -2, 0⟩ ⟨2, 0, 2⟩) ∧
    ¬ ∃ obj2, placeOnGround raisedChild = some obj2 ∧
        ∃ mn2 mx2, Box3.setFromObject obj2 = Box3.box mn2 mx2 ∧ mn2.y = 0 := by
  have h0 : Box3.setFromObject raisedChild = Box3.box ⟨0, 2, 0⟩ ⟨2, 4, 2⟩ := by
    norm_num [raisedChild, scaleTwo, Box3.setFromObject, Box3.expandByNode,
      Box3.expandByChildren, Object3D.updateWorldMatrix, Object3D.matrix, Matrix4.compose,
      Matrix4.multiplyMatrices, Geometry.computeBoundingBox, Box3.setFromPoints,
      Box3.expandByPoint, Box3.union, Box3.applyMatrix4, Box3.isEmpty, Vector3.applyMatrix4,
      Vector3.min, Vector3.max]
  have hp : (placeOnGround raisedChild).map Object3D.position = some ⟨0, -2, 0⟩ := by
    unfold placeOnGround
    rw [h0]
    norm_num [raisedChild]
  have h1 : (placeOnGround raisedChild).map Box3.setFromObject
      = some (Box3.box ⟨0, -2, 0⟩ ⟨2, 0, 2⟩) := by
    unfold placeOnGround
    rw [h0]
    norm_num [raisedChild, scaleTwo, Box3.setFromObject, Box3.expandByNode,
      Box3.expandByChildren, Object3D.updateWorldMatrix, Object3D.matrix, Matrix4.compose,
      Matrix4.multiplyMatrices, Geometry.computeBoundingBox, Box3.setFromPoints,
      Box3.expandByPoint, Box3.union, Box3.applyMatrix4, Box3.isEmpty, Vector3.applyMatrix4,
      Vector3.min, Vector3.max]
  refine ⟨h0, hp, h1, ?_⟩
  rintro ⟨obj2, hpl, mn2, mx2, hbox, hy⟩
  rw [hpl] at h1
  simp only [Option.map_some', Option.some.injEq] at h1
  rw [hbox] at h1
  simp only [Box3.box.injEq] at h1
  rw [h1.1] at hy
  norm_num at hy

/-- C5 at a mesh under a parent scaled by 2. The world box has y in `[-2, 2]`;
`clampIfBelowGround` adds `2` to the local `position.y`, which through the parent moves
the world box by `4`: the box ends with y in `[2, 6]`, so `min.y` is `2`, not
`max(0, -2) = 0`. -/
theorem clampIfBelowGround_scaled_parent :
    Box3.setFromObject sunkenChild = Box3.box ⟨0, -2, 0⟩ ⟨2, 2, 2⟩ ∧
    (clampIfBelowGround (some sunkenChild)).map Object3D.position = some ⟨0, 2, 0⟩ ∧
    (clampIfBelowGround (some sunkenChild)).map Box3.setFromObject
      = some (Box3.box ⟨0, 2, 0⟩ ⟨2, 6, 2⟩) ∧
    ¬ ∃ o2, clampIfBelowGround (some sunkenChild) = some o2 ∧
        ∃ mn2 mx2, Box3.setFromObject o2 = Box3.box mn2 mx2 ∧ mn2.y = max 0 (-2) := by
  have h0 : Box3.setFromObject sunkenChild = Box3.box ⟨0, -2, 0⟩ ⟨2, 2, 2⟩ := by
    norm_num [sunkenChild, scaleTwo, Box3.setFromObject, Box3.expandByNode,
      Box3.expandByChildren, Object3D.updateWorldMatrix, Object3D.matrix, Matrix4.compose,
      Matrix4.multiplyMatrices, Geometry.computeBoundingBox, Box3.setFromPoints,
      Box3.expandByPoint, Box3.union, Box3.applyMatrix4, Box3.isEmpty, Vector3.applyMatrix4,
      Vector3.min, Vector3.max]
  have hp : (clampIfBelowGround (some sunkenChild)).map Object3D.position
      = some ⟨0, 2, 0⟩ := by
    unfold clampIfBelowGround
    simp only [h0]
    norm_num [sunkenChild]
  have h1 : (clampIfBelowGround (some sunkenChild)).map Box3.setFromObject
      = some (Box3.box ⟨0, 2, 0⟩ ⟨2, 6, 2⟩) := by
    unfold clampIfBelowGround
    simp only [h0]
    norm_num [sunkenChild, scaleTwo, Box3.setFromObject, Box3.expandByNode,
      Box3.expandByChildren, Object3D.updateWorldMatrix, Object3D.matrix, Matrix4.compose,
      Matrix4.multiplyMatrices, Geometry.computeBoundingBox, Box3.setFromPoints,
      Box3.expandByPoint, Box3.union, Box3.applyMatrix4, Box3.isEmpty, Vector3.applyMatrix4,
      Vector3.min, Vector3.max]
  refine ⟨h0, hp, h1, ?_⟩
  rintro ⟨o2, hcl, mn2, mx2, hbox, hy⟩
  rw [hcl] at h1
  simp only [Option.map_some', Option.some.injEq] at h1
  rw [hbox] at h1
  simp only [Box3.box.injEq] at h1
  rw [h1.1] at hy
  norm_num at hy

/-- C3 at a root of scale 2. The world box has height `2`, `normalizeScale(obj, 1.8)` sets
the scale to `1.8 / 2 = 0.9`, and the world box then has height `0.9`, not `1.8`. -/
theorem normalizeScale_scaled_root :
    Box3.setFromObject scaledMesh = Box3.box ⟨0, 0, 0⟩ ⟨2, 2, 2⟩ ∧
    (normalizeScale scaledMesh (18 / 10)).scale = ⟨9 / 10, 9 / 10, 9 / 10⟩ ∧
    Box3.setFromObject (normalizeScale scaledMesh (18 / 10))
      = Box3.box ⟨0, 0, 0⟩ ⟨9 / 10, 9 / 10, 9 / 10⟩ ∧
    (Box3.setFromObject (normalizeScale scaledMesh (18 / 10))).getSize.y ≠ 18 / 10 := by
  have h0 : Box3.setFromObject scaledMesh = Box3.box ⟨0, 0, 0⟩ ⟨2, 2, 2⟩ := by
    norm_num [scaledMesh, Box3.setFromObject, Box3.expandByNode,
      Box3.expandByChildren, Object3D.updateWorldMatrix, Object3D.matrix, Matrix4.compose,
      Matrix4.multiplyMatrices, Geometry.computeBoundingBox, Box3.setFromPoints,
      Box3.expandByPoint, Box3.union, Box3.applyMatrix4, Box3.isEmpty, Vector3.applyMatrix4,
      Vector3.min, Vector3.max]
  have h1 : normalizeScale scaledMesh (18 / 10)
      = { scaledMesh with scale := ⟨9 / 10, 9 / 10, 9 / 10⟩ } := by
    unfold normalizeScale
    simp only [h0]
    norm_num [Box3.getSize, Box3.isEmpty, Vector3.sub, Vector3.setScalar]
  have h2 : Box3.setFromObject (normalizeScale scaledMesh (18 / 10))
      = Box3.box ⟨0, 0, 0⟩ ⟨9 / 10, 9 / 10, 9 / 10⟩ := by
    rw [h1]
    norm_num [scaledMesh, Box3.setFromObject, Box3.expandByNode,
      Box3.expandByChildren, Object3D.updateWorldMatrix, Object3D.matrix, Matrix4.compose,
      Matrix4.multiplyMatrices, Geometry.computeBoundingBox, Box3.setFromPoints,
      Box3.expandByPoint, Box3.union, Box3.applyMatrix4, Box3.isEmpty, Vector3.applyMatrix4,
      Vector3.min, Vector3.max]
  refine ⟨h0, by rw [h1], h2, ?_⟩
  rw [h2]
  norm_num [Box3.getSize, Box3.isEmpty, Vector3.sub]

/-- C10 at a mesh under a parent scaled by 2. The world box is `[0, 2]` on every axis, of
height `h = 2` and centre `(1, 1, 1)`; `hardCenterObject` takes the centre off the local
position, which through the parent moves the world box by `-2`: the box ends at `[-2, 0]`
on every axis, and the orbit target is set to `(0, 2, 0)`, not `(0, h/2, 0) = (0, 1, 0)`,
before `controls.update()` runs on it. -/
theorem hardCenterObject_scaled_parent (controlsUpdate : Vector3 → Vector3) :
    Box3.setFromObject tallChild = Box3.box ⟨0, 0, 0⟩ ⟨2, 2, 2⟩ ∧
    (hardCenterObject controlsUpdate tallChild).1.position = ⟨-1, -1, -1⟩ ∧
    Box3.setFromObject (hardCenterObject controlsUpdate tallChild).1
      = Box3.box ⟨-2, -2, -2⟩ ⟨0, 0, 0⟩ ∧
    (hardCenterObject controlsUpdate tallChild).2 = controlsUpdate ⟨0, 2, 0⟩ ∧
    (⟨0, 2, 0⟩ : Vector3) ≠ ⟨0, (2 - 0) / 2, 0⟩ := by
  have h0 : Box3.setFromObject tallChild = Box3.box ⟨0, 0, 0⟩ ⟨2, 2, 2⟩ := by
    norm_num [tallChild, scaleTwo, Box3.setFromObject, Box3.expandByNode,
      Box3.expandByChildren, Object3D.updateWorldMatrix, Object3D.matrix, Matrix4.compose,
      Matrix4.multiplyMatrices, Geometry.computeBoundingBox, Box3.setFromPoints,
      Box3.expandByPoint, Box3.union, Box3.applyMatrix4, Box3.isEmpty, Vector3.applyMatrix4,
      Vector3.min, Vector3.max]
  have hobj : (hardCenterObject controlsUpdate tallChild).1
      = { tallChild with position := ⟨-1, -1, -1⟩ } := by
    unfold hardCenterObject
    simp only [h0]
    norm_num [tallChild, Box3.getCenter, Box3.isEmpty, Vector3.add, Vector3.sub,
      Vector3.multiplyScalar]
  have h1 : Box3.setFromObject { tallChild with position := ⟨-1, -1, -1⟩ }
      = Box3.box ⟨-2, -2, -2⟩ ⟨0, 0, 0⟩ := by
    norm_num [tallChild, scaleTwo, Box3.setFromObject, Box3.expandByNode,
      Box3.expandByChildren, Object3D.updateWorldMatrix, Object3D.matrix, Matrix4.compose,
      Matrix4.multiplyMatrices, Geometry.computeBoundingBox, Box3.setFromPoints,
      Box3.expandByPoint, Box3.union, Box3.applyMatrix4, Box3.isEmpty, Vector3.applyMatrix4,
      Vector3.min, Vector3.max]
  have h2 : (hardCenterObject controlsUpdate tallChild).2
      = controlsUpdate (orbitTarget (Box3.setFromObject
          (hardCenterObject controlsUpdate tallChild).1)) := rfl
  refine ⟨h0, by rw [hobj], by rw [hobj, h1], ?_, by norm_num⟩
  rw [h2, hobj, h1]
  norm_num [orbitTarget]

/-! ## Dubois toggle -/

/-- C7. For every effect that has both colour matrices, a change event with `checked =
true` sets `colorMatrixLeft` to `DUBOIS_LEFT` and `colorMatrixRight` to `DUBOIS_RIGHT`,
all nine entries each, and one with `checked = false` sets both to the 3x3 identity,
whatever they were before; if either matrix is missing, the event changes nothing. -/
theorem duboisChange_sets :
    (∀ l r : Matrix3,
      duboisChange ⟨some l, some r⟩ true = ⟨some DUBOIS_LEFT, some DUBOIS_RIGHT⟩ ∧
      duboisChange ⟨some l, some r⟩ false
        = ⟨some Matrix3.identity, some Matrix3.identity⟩) ∧
    (∀ (effect : AnaglyphEffect) (checked : Bool),
      effect.colorMatrixLeft = none ∨ effect.colorMatrixRight = none →
        duboisChange effect checked = effect) ∧
    DUBOIS_LEFT = ⟨456100 / 1000000, -400822 / 10000000, -152161 / 10000000,
      500484 / 1000000, -378246 / 10000000, -205971 / 10000000,
      176381 / 1000000, -157589 / 10000000, -546856 / 100000000⟩ ∧
    DUBOIS_RIGHT = ⟨-434706 / 10000000, 378476 / 1000000, -721527 / 10000000,
      -879388 / 10000000, 733640 / 1000000, -1129610 / 10000000,
      -155529 / 100000000, -184503 / 10000000, 12264000 / 10000000⟩ ∧
    Matrix3.identity = ⟨1, 0, 0, 0, 1, 0, 0, 0, 1⟩ := by
  refine ⟨fun l r => ⟨rfl, rfl⟩, ?_, ?_, ?_, rfl⟩
  · intro effect checked h
    obtain ⟨l, r⟩ := effect
    rcases h with h | h
    · simp only at h
      subst h
      rfl
    · simp only at h
      subst h
      cases l <;> rfl
  · norm_num [DUBOIS_LEFT, Matrix3.fromArray]
  · norm_num [DUBOIS_RIGHT, Matrix3.fromArray]

/-! ## Hiding preview planes -/

theorem sortedDims_eq (sz : Vector3) (thin mid big : ℚ)
    (hperm : List.Perm [thin, mid, big] [|sz.x|, |sz.y|, |sz.z|])
    (h1 : thin ≤ mid) (h2 : mid ≤ big) : sortedDims sz = [thin, mid, big] := by
  unfold sortedDims
  apply List.eq_of_perm_of_sorted (r := fun a b : ℚ => a ≤ b)
  · exact (List.perm_insertionSort _ _).trans hperm.symm
  · exact List.sorted_insertionSort _ _
  · simp only [List.Sorted, List.pairwise_cons, List.mem_cons, List.mem_singleton,
      forall_eq_or_imp, forall_eq, List.not_mem_nil, false_implies, implies_true,
      List.Pairwise.nil, and_true]
    exact ⟨⟨h1, le_trans h1 h2⟩, h2⟩

theorem stripFlatPlanesVisit_visible_le (c : Object3D) :
    (stripFlatPlanesVisit c).visible = true → c.visible = true := by
  unfold stripFlatPlanesVisit
  split
  · simp only
    split
    · intro h
      exact absurd h (by simp)
    · split
      · intro h
        exact absurd h (by simp)
      · exact id
  · exact id

theorem stripFlatPlanesVisit_same (c : Object3D) :
    c.SameButVisible (stripFlatPlanesVisit c) ∧
      (stripFlatPlanesVisit c).children = c.children := by
  unfold stripFlatPlanesVisit Object3D.SameButVisible
  split
  · simp only
    split
    · exact ⟨⟨rfl, rfl, rfl, rfl, rfl, rfl, rfl, rfl⟩, rfl⟩
    · split
      · exact ⟨⟨rfl, rfl, rfl, rfl, rfl, rfl, rfl, rfl⟩, rfl⟩
      · exact ⟨⟨rfl, rfl, rfl, rfl, rfl, rfl, rfl, rfl⟩, rfl⟩
  · exact ⟨⟨rfl, rfl, rfl, rfl, rfl, rfl, rfl, rfl⟩, rfl⟩

mutual
theorem stripFlatPlanes_nodes : (root : Object3D) →
    List.Forall₂
      (fun c c2 => c2.visible = (stripFlatPlanesVisit c).visible ∧ c.SameButVisible c2)
      root.traverseNodes (stripFlatPlanes root).traverseNodes
  | ⟨name, isMesh, isSkinnedMesh, visible, position, quaternion, scale, parent, geometry,
      children⟩ => by
    have hs := stripFlatPlanesVisit_same
      ⟨name, isMesh, isSkinnedMesh, visible, position, quaternion, scale, parent, geometry,
        children⟩
    simp only [stripFlatPlanes, Object3D.traverseNodes]
    exact List.Forall₂.cons ⟨rfl, hs.1⟩ (stripFlatPlanesChildren_nodes children)
theorem stripFlatPlanesChildren_nodes : (cs : List Object3D) →
    List.Forall₂
      (fun c c2 => c2.visible = (stripFlatPlanesVisit c).visible ∧ c.SameButVisible c2)
      (traverseNodesList cs) (traverseNodesList (stripFlatPlanesChildren cs))
  | [] => by
    simp only [stripFlatPlanesChildren, traverseNodesList]
    exact List.Forall₂.nil
  | c :: cs => by
    simp only [stripFlatPlanesChildren, traverseNodesList]
    exact List.rel_append (stripFlatPlanes_nodes c) (stripFlatPlanesChildren_nodes cs)
end

/-- C9. `stripFlatPlanes` visits every node of the tree and changes nothing but `visible`.
A mesh with geometry is hidden when its lower-cased name contains `plane`, `shadow`,
`card` or `board`, skinned or not; otherwise, with the absolute extents of its bounding
box sorted as `thin ≤ mid ≤ big`, it is hidden exactly when it is not a skinned mesh and
`thin < 0.02 * big` and `mid * big > 0.2` (never on an empty box, whose extents are
infinite); a node that is no mesh or has no geometry is left as it is; and no node's
`visible` flag is ever set to true. -/
theorem stripFlatPlanes_hides :
    (∀ root : Object3D,
      List.Forall₂
        (fun c c2 => c2.visible = (stripFlatPlanesVisit c).visible ∧ c.SameButVisible c2)
        root.traverseNodes (stripFlatPlanes root).traverseNodes) ∧
    (∀ (c : Object3D) (g : Geometry), c.isMesh = true → c.geometry = some g →
      (includes (toLowerCase c.name) "plane" || includes (toLowerCase c.name) "shadow" ||
        includes (toLowerCase c.name) "card" || includes (toLowerCase c.name) "board") = true →
      (stripFlatPlanesVisit c).visible = false) ∧
    (∀ (c : Object3D) (g : Geometry), c.isMesh = true → c.geometry = some g →
      (includes (toLowerCase c.name) "plane" || includes (toLowerCase c.name) "shadow" ||
        includes (toLowerCase c.name) "card" || includes (toLowerCase c.name) "board") = false →
      (g.computeBoundingBox = Box3.empty → (stripFlatPlanesVisit c).visible = c.visible) ∧
      ∀ mn mx : Vector3, g.computeBoundingBox = Box3.box mn mx →
        ∀ thin mid big : ℚ,
          List.Perm [thin, mid, big] [|mx.x - mn.x|, |mx.y - mn.y|, |mx.z - mn.z|] →
          thin ≤ mid → mid ≤ big →
          (stripFlatPlanesVisit c).visible
            = if c.isSkinnedMesh = false ∧ thin < 2 / 100 * big ∧ mid * big > 2 / 10
              then false else c.visible) ∧
    (∀ c : Object3D, c.isMesh = false ∨ c.geometry = none → stripFlatPlanesVisit c = c) ∧
    (∀ root : Object3D,
      List.Forall₂ (fun c c2 => c2.visible = true → c.visible = true)
        root.traverseNodes (stripFlatPlanes root).traverseNodes) := by
  refine ⟨stripFlatPlanes_nodes, ?_, ?_, ?_, ?_⟩
  · intro c g hm hg hit
    simp only [stripFlatPlanesVisit, hm, hg, hit, if_true]
  · intro c g hm hg hit
    constructor
    · intro he
      simp only [stripFlatPlanesVisit, hm, hg, hit, he, isFlatPlane, Bool.false_eq_true,
        if_false, Bool.false_and]
    · intro mn mx hbox thin mid big hperm h1 h2
      have hd := sortedDims_eq (mx.sub mn) thin mid big hperm h1 h2
      simp only [stripFlatPlanesVisit, hm, hg, hit, hbox, isFlatPlane, hd, Bool.false_eq_true,
        if_false, List.getD_cons_zero, List.getD_cons_succ]
      by_cases hsk : c.isSkinnedMesh = true
      · simp [hsk]
      · have hsk2 : c.isSkinnedMesh = false := by simpa using hsk
        by_cases ht : thin < 2 / 100 * big
        · by_cases hmb : mid * big > 2 / 10
          · have ht2 : thin < big * (2 / 100) := by linarith
            simp [hsk2, ht, hmb, ht2]
          · have ht2 : thin < big * (2 / 100) := by linarith
            simp [hsk2, ht, hmb, ht2]
        · have ht2 : ¬ thin < big * (2 / 100) := fun hlt => ht (by linarith)
          simp [hsk2, ht, ht2]
  · intro c h
    rcases h with h | h
    · simp only [stripFlatPlanesVisit, h]
    · unfold stripFlatPlanesVisit
      rw [h]
      cases c.isMesh <;> rfl
  · intro root
    refine List.Forall₂.imp ?_ (stripFlatPlanes_nodes root)
    intro c c2 hc hv
    rw [hc.1] at hv
    exact stripFlatPlanesVisit_visible_le c hv

theorem stripFlatPlanes_hides_witness :
    (stripFlatPlanesVisit previewPlane).visible = false ∧
    (stripFlatPlanesVisit floorQuad).visible = false ∧
    (stripFlatPlanesVisit bodyMesh).visible = true := by
  obtain ⟨-, hname, hflat, -, -⟩ := stripFlatPlanes_hides
  refine ⟨hname previewPlane ⟨[⟨0, 0, 0⟩, ⟨1, 1, 1⟩]⟩ rfl rfl (by decide), ?_, ?_⟩
  · have hbox : (Geometry.mk [⟨-5, 0, -5⟩, ⟨5, 0, 5⟩]).computeBoundingBox
        = Box3.box ⟨-5, 0, -5⟩ ⟨5, 0, 5⟩ := by
      norm_num [Geometry.computeBoundingBox, Box3.setFromPoints, Box3.expandByPoint,
        Vector3.min, Vector3.max]
    have hperm : List.Perm [(0 : ℚ), 10, 10]
        [|(5 : ℚ) - -5|, |(0 : ℚ) - 0|, |(5 : ℚ) - -5|] := by
      have h10 : |(5 : ℚ) - -5| = 10 := by norm_num
      have h0 : |(0 : ℚ) - 0| = 0 := by norm_num
      rw [h10, h0]
      exact List.Perm.swap 10 0 [10]
    have h := (hflat floorQuad ⟨[⟨-5, 0, -5⟩, ⟨5, 0, 5⟩]⟩ rfl rfl (by decide)).2
      ⟨-5, 0, -5⟩ ⟨5, 0, 5⟩ hbox 0 10 10 hperm (by norm_num) (by norm_num)
    rw [h]
    norm_num [floorQuad]
  · have hbox : (Geometry.mk [⟨0, 0, 0⟩, ⟨1, 2, 1⟩]).computeBoundingBox
        = Box3.box ⟨0, 0, 0⟩ ⟨1, 2, 1⟩ := by
      norm_num [Geometry.computeBoundingBox, Box3.setFromPoints, Box3.expandByPoint,
        Vector3.min, Vector3.max]
    have hperm : List.Perm [(1 : ℚ), 1, 2]
        [|(1 : ℚ) - 0|, |(2 : ℚ) - 0|, |(1 : ℚ) - 0|] := by
      have h1 : |(1 : ℚ) - 0| = 1 := by norm_num
      have h2 : |(2 : ℚ) - 0| = 2 := by norm_num
      rw [h1, h2]
      exact List.Perm.cons 1 (List.Perm.swap 2 1 [])
    have h := (hflat bodyMesh ⟨[⟨0, 0, 0⟩, ⟨1, 2, 1⟩]⟩ rfl rfl (by decide)).2
      ⟨0, 0, 0⟩ ⟨1, 2, 1⟩ hbox 1 1 2 hperm (by norm_num) (by norm_num)
    rw [h]
    norm_num [bodyMesh]

end Anaglifo
